import Mathlib

/-!
Verification of the namespace-switching core of `kunai`
(`src/kunai/src/util/namespaces.rs`), as a shallow embedding.

OS interaction (reading `/proc/<pid>/ns/<tag>` symlinks, opening namespace
files, the `setns` syscall) is modelled by oracle inputs: the result the OS
would return is passed in as data, and the embedded functions follow the
source's control flow on those results.  `setns` invocations are logged so
that "zero switching syscalls" and "exit never attempted" are provable, and
`do_in_namespace` additionally reports whether the caller-supplied logic was
invoked.
-/

/-- The eight Linux namespace kinds (`enum Kind` in the source). -/
inductive Kind
  | Cgroup
  | Ipc
  | Mnt
  | Net
  | Pid
  | Time
  | User
  | Uts
deriving DecidableEq, Repr

/-- `Kind::as_str`: the canonical tag of each kind, from the `#[str(...)]`
attributes on the enum. -/
def Kind.as_str : Kind → String
  | .Cgroup => "cgroup"
  | .Ipc => "ipc"
  | .Mnt => "mnt"
  | .Net => "net"
  | .Pid => "pid"
  | .Time => "time"
  | .User => "user"
  | .Uts => "uts"

/-- All enum variants, in declaration order. -/
def Kind.all : List Kind :=
  [.Cgroup, .Ipc, .Mnt, .Net, .Pid, .Time, .User, .Uts]

/-- `PathBuf::join`: appends the platform separator and the component. -/
def pathJoin (a b : String) : String := a ++ "/" ++ b

/-- `Kind::path`: `PathBuf::from(format!("/proc/{pid}/ns")).join(self.as_str())`. -/
def Kind.path (k : Kind) (pid : Nat) : String :=
  pathJoin ("/proc/" ++ toString pid ++ "/ns") k.as_str

/-- `struct Namespace { inum: u32, kind: Kind }`.  `inum` is a `u32` in the
source; it is a `Nat` here and every constructor used by the embedded code
produces a value `< 2^32`. -/
structure Namespace where
  inum : Nat
  kind : Kind
deriving DecidableEq, Repr

/-- An OS error (`std::io::Error` obtained from `last_os_error`), reduced to
its errno code. -/
structure IoError where
  code : Nat
deriving DecidableEq, Repr

/-- The kind of a `std::num::ParseIntError`, as produced by
`str::parse::<u32>`. -/
inductive ParseIntErrorKind
  | empty
  | invalidDigit
  | posOverflow
deriving DecidableEq, Repr

/-- `enum NsError { Format, Parse(ParseIntError), Io(io::Error) }`.
The `Io` variant is spelled `IoErr` here. -/
inductive NsError
  | Format
  | Parse (e : ParseIntErrorKind)
  | IoErr (e : IoError)
deriving DecidableEq, Repr

instance {ε α : Type} [DecidableEq ε] [DecidableEq α] : DecidableEq (Except ε α) := fun a b =>
  match a, b with
  | .ok x, .ok y =>
    if h : x = y then .isTrue (by rw [h]) else .isFalse (by intro hh; cases hh; exact h rfl)
  | .error x, .error y =>
    if h : x = y then .isTrue (by rw [h]) else .isFalse (by intro hh; cases hh; exact h rfl)
  | .ok _, .error _ => .isFalse (by intro h; cases h)
  | .error _, .ok _ => .isFalse (by intro h; cases h)

/-- One digit step of Rust's unsigned integer parsing: check the character
is an ASCII digit, then accumulate with an overflow check against `u32`. -/
def parseU32Core : List Char → Nat → Except ParseIntErrorKind Nat
  | [], acc => .ok acc
  | c :: cs, acc =>
    if c.isDigit then
      let acc' := acc * 10 + (c.toNat - 48)
      if acc' < 2 ^ 32 then parseU32Core cs acc' else .error .posOverflow
    else .error .invalidDigit

/-- `str::parse::<u32>` (`u32::from_str`): an optional leading `+`, then a
nonempty run of ASCII digits whose value fits in 32 bits; a leading `-` is
rejected for an unsigned type. -/
def parseU32 (s : List Char) : Except ParseIntErrorKind Nat :=
  match s with
  | [] => .error .empty
  | c :: rest =>
    if c = '+' then
      match rest with
      | [] => .error .invalidDigit
      | _ :: _ => parseU32Core rest 0
    else if c = '-' then .error .invalidDigit
    else parseU32Core s 0

/-- `str::strip_prefix` on character lists: remove `p` from the front of `s`
if it is there. -/
def dropPre : List Char → List Char → Option (List Char)
  | [], s => some s
  | _ :: _, [] => none
  | p :: ps, c :: cs => if p = c then dropPre ps cs else none

/-- `str::strip_suffix(']')` on character lists: remove one trailing `]`
if it is there. -/
def dropRB : List Char → Option (List Char)
  | [] => none
  | c :: cs =>
    match cs with
    | [] => if c = ']' then some [] else none
    | _ :: _ => (dropRB cs).map (c :: ·)

/-- The expected front matter of a namespace symlink target:
`format!("{}:[", kind.as_str())`. -/
def tagFront (kind : Kind) : List Char :=
  kind.as_str.data ++ [':', '[']

/-- The pure core of `Namespace::from_pid`, given the symlink target already
read: strip the `"<tag>:["` front and the `"]"` tail (else `Format`), parse
the span as `u32` (else `Parse`), and build the identity. -/
def fromPidPure (kind : Kind) (link : List Char) : Except NsError Namespace :=
  match dropPre (tagFront kind) link with
  | none => .error .Format
  | some rest =>
    match dropRB rest with
    | none => .error .Format
    | some s =>
      match parseU32 s with
      | .error e => .error (.Parse e)
      | .ok n => .ok { inum := n, kind := kind }

/-- `Namespace::from_pid`: the OS read of the symlink at `kind.path pid` is
passed in as its result; an unreadable link becomes an `Io`-wrapped error
via the `?` operator, otherwise the target string is parsed. -/
def Namespace.from_pid (kind : Kind) (readLink : Except IoError (List Char)) :
    Except NsError Namespace :=
  match readLink with
  | .error e => .error (.IoErr e)
  | .ok link => fromPidPure kind link

/-- An open `std::fs::File`, reduced to its raw descriptor. -/
structure NsFile where
  fd : Nat
deriving DecidableEq, Repr

/-- `Namespace::open`: opens `kind.path pid` read-only; the OS result is
passed in, and an open failure is wrapped with `NsError::from` (the `Io`
variant). -/
def Namespace.openNs (openRes : Except IoError NsFile) : Except NsError NsFile :=
  match openRes with
  | .error e => .error (.IoErr e)
  | .ok f => .ok f

example : fromPidPure Kind.Pid "pid:[42]".data = .ok { inum := 42, kind := Kind.Pid } := by decide

example : fromPidPure Kind.Pid "pid:[x]".data = .error (.Parse .invalidDigit) := by decide

example : fromPidPure Kind.Pid "net:[42]".data = .error .Format := by decide

example : parseU32 "4294967296".data = .error .posOverflow := by decide

example : parseU32 "+7".data = .ok 7 := by decide

/-- `libc::CLONE_NEWNS` (0x00020000), the fixed `nstype` flag both switch
phases pass to `setns`. -/
def CLONE_NEWNS : Nat := 131072

/-- One recorded invocation of the `setns` syscall: the file descriptor and
the `nstype` flag that were passed. -/
structure SetnsCall where
  fd : Nat
  nstype : Nat
deriving DecidableEq, Repr

/-- The OS's behaviour for `setns`: for a descriptor and flag, either
success or the errno the syscall would set. -/
structure Env where
  setns : Nat → Nat → Except IoError Unit

/-- `struct Switcher { namespace: Namespace, src: Option<File>, dst: Option<File> }`.
The `namespace` field is spelled `ns` here (`namespace` is a Lean keyword). -/
structure Switcher where
  ns : Namespace
  src : Option NsFile
  dst : Option NsFile
deriving DecidableEq, Repr

/-- `enum Error { Enter(Namespace, io::Error), Exit(..), Namespace(NsError), Other(..) }`.
`Other` boxes an arbitrary caller error; it is reduced to a message string. -/
inductive Error
  | Enter (ns : Namespace) (e : IoError)
  | Exit (ns : Namespace) (e : IoError)
  | Namespace (e : NsError)
  | Other (msg : String)
deriving DecidableEq, Repr

/-- `Switcher::enter`: if `dst` is present, call `setns(dst, CLONE_NEWNS)`
and wrap a failure as `Error::Enter(self.namespace, e)`; otherwise do
nothing.  The second component logs the `setns` calls made. -/
def Switcher.enter (sw : Switcher) (env : Env) :
    Except Error Unit × List SetnsCall :=
  match sw.dst with
  | some dst =>
    (match env.setns dst.fd CLONE_NEWNS with
     | .error e => .error (.Enter sw.ns e)
     | .ok _ => .ok (),
     [{ fd := dst.fd, nstype := CLONE_NEWNS }])
  | none => (.ok (), [])

/-- `Switcher::exit`: if `src` is present, call `setns(src, CLONE_NEWNS)`
and wrap a failure as `Error::Exit(self.namespace, e)`; otherwise do
nothing. -/
def Switcher.exit (sw : Switcher) (env : Env) :
    Except Error Unit × List SetnsCall :=
  match sw.src with
  | some src =>
    (match env.setns src.fd CLONE_NEWNS with
     | .error e => .error (.Exit sw.ns e)
     | .ok _ => .ok (),
     [{ fd := src.fd, nstype := CLONE_NEWNS }])
  | none => (.ok (), [])

/-- `Switcher::do_in_namespace`: `self.enter()?; let res = f(); self.exit()?; res`.
Besides the returned result, the model reports the list of `setns` calls
performed and whether the caller-supplied logic `f` was invoked. -/
def Switcher.do_in_namespace {T : Type} (sw : Switcher) (env : Env)
    (f : Unit → Except Error T) :
    Except Error T × List SetnsCall × Bool :=
  match sw.enter env with
  | (.error e, c1) => (.error e, c1, false)
  | (.ok _, c1) =>
    let res := f ()
    match sw.exit env with
    | (.error e, c2) => (.error e, c1 ++ c2, true)
    | (.ok _, c2) => (res, c1 ++ c2, true)

/-- The filesystem/OS behaviour `Switcher::new` runs against: the calling
process's id, and for each `(kind, pid)` the outcome of reading the symlink
at `kind.path pid` and of opening that path read-only. -/
structure FsEnv where
  self_pid : Nat
  read_link : Kind → Nat → Except IoError (List Char)
  openf : Kind → Nat → Except IoError NsFile

/-- `Switcher::new`: resolve the caller's and the target's identities (any
failure is wrapped by `#[from]` into `Error::Namespace` via `?`); if they
are equal open no handles, otherwise open the caller's namespace (`src`)
then the target's (`dst`); the result carries the target identity. -/
def Switcher.new (kind : Kind) (pid : Nat) (env : FsEnv) :
    Except Error Switcher :=
  match Namespace.from_pid kind (env.read_link kind env.self_pid) with
  | .error e => .error (.Namespace e)
  | .ok self_ns =>
    match Namespace.from_pid kind (env.read_link kind pid) with
    | .error e => .error (.Namespace e)
    | .ok target_ns =>
      if self_ns = target_ns then
        .ok { ns := target_ns, src := none, dst := none }
      else
        match Namespace.openNs (env.openf kind env.self_pid) with
        | .error e => .error (.Namespace e)
        | .ok src =>
          match Namespace.openNs (env.openf kind pid) with
          | .error e => .error (.Namespace e)
          | .ok dst => .ok { ns := target_ns, src := some src, dst := some dst }

/-! Helper lemmas about the string machinery. -/

theorem dropPre_append (p s : List Char) : dropPre p (p ++ s) = some s := by
  induction p with
  | nil => rfl
  | cons c cs ih => simp [dropPre, ih]

theorem dropPre_sound (p : List Char) : ∀ l r : List Char, dropPre p l = some r → l = p ++ r := by
  induction p with
  | nil =>
    intro l r h
    simp only [dropPre] at h
    simp [Option.some.injEq] at h
    simp [h]
  | cons c cs ih =>
    intro l r h
    cases l with
    | nil => simp [dropPre] at h
    | cons a tl =>
      simp only [dropPre] at h
      split at h
      · rename_i hca
        have := ih tl r h
        simp [hca, this]
      · cases h

theorem dropRB_append (m : List Char) : dropRB (m ++ [']']) = some m := by
  induction m with
  | nil => rfl
  | cons c ms ih =>
    cases ms with
    | nil => simp [dropRB]
    | cons a tl =>
      have hstep : dropRB ((c :: a :: tl) ++ [']']) =
          (dropRB ((a :: tl) ++ [']'])).map (c :: ·) := rfl
      rw [hstep, ih]
      rfl

theorem dropRB_sound : ∀ l m : List Char, dropRB l = some m → l = m ++ [']'] := by
  intro l
  induction l with
  | nil => intro m h; simp [dropRB] at h
  | cons c cs ih =>
    intro m h
    cases cs with
    | nil =>
      simp only [dropRB] at h
      split at h
      · rename_i hc
        simp only [Option.some.injEq] at h
        subst hc; simp [← h]
      · cases h
    | cons a tl =>
      simp only [dropRB, Option.map_eq_some'] at h
      obtain ⟨m', hm', rfl⟩ := h
      have := ih m' hm'
      simp [this]

theorem parseU32Core_lt (s : List Char) :
    ∀ acc n : Nat, acc < 2 ^ 32 → parseU32Core s acc = .ok n → n < 2 ^ 32 := by
  induction s with
  | nil =>
    intro acc n hacc h
    simp [parseU32Core] at h
    omega
  | cons c cs ih =>
    intro acc n hacc h
    simp only [parseU32Core] at h
    split at h
    · split at h
      · exact ih _ n (by rename_i hlt; exact hlt) h
      · cases h
    · cases h

theorem parseU32_lt (s : List Char) (n : Nat) (h : parseU32 s = .ok n) : n < 2 ^ 32 := by
  cases s with
  | nil => simp [parseU32] at h
  | cons c rest =>
    simp only [parseU32] at h
    split at h
    · cases rest with
      | nil => cases h
      | cons a tl => exact parseU32Core_lt _ 0 n (by norm_num) h
    · split at h
      · cases h
      · exact parseU32Core_lt _ 0 n (by norm_num) h

/-- Everything a successful `Switcher::new` guarantees: both resolutions
succeeded, the result carries the target identity, and the handle pair is
`none`/`none` exactly on the equal-identity path and `some`/`some` exactly
on the differing-identity path. -/
theorem new_ok_inv (kind : Kind) (pid : Nat) (env : FsEnv) (sw : Switcher)
    (h : Switcher.new kind pid env = .ok sw) :
    ∃ self_ns target_ns : Namespace,
      Namespace.from_pid kind (env.read_link kind env.self_pid) = .ok self_ns ∧
      Namespace.from_pid kind (env.read_link kind pid) = .ok target_ns ∧
      sw.ns = target_ns ∧
      ((self_ns = target_ns ∧ sw.src = none ∧ sw.dst = none) ∨
       (self_ns ≠ target_ns ∧ ∃ s d : NsFile, sw.src = some s ∧ sw.dst = some d)) := by
  unfold Switcher.new at h
  split at h
  · cases h
  · rename_i self_ns hself
    split at h
    · cases h
    · rename_i target_ns htarget
      split at h
      · rename_i heq
        refine ⟨self_ns, target_ns, hself, htarget, ?_, ?_⟩
        · cases h; rfl
        · left
          cases h
          exact ⟨heq, rfl, rfl⟩
      · rename_i hne
        split at h
        · cases h
        · rename_i src hsrc
          split at h
          · cases h
          · rename_i dst hdst
            refine ⟨self_ns, target_ns, hself, htarget, ?_, ?_⟩
            · cases h; rfl
            · right
              cases h
              exact ⟨hne, src, dst, rfl, rfl⟩

/-! Concrete fixtures used by witnesses. -/

/-- An OS in which every `setns` call succeeds. -/
def envOk : Env := ⟨fun _ _ => .ok ()⟩

/-- An OS in which `setns` fails with errno `code` exactly on descriptor
`bad`, and succeeds elsewhere. -/
def envFailFd (bad code : Nat) : Env :=
  ⟨fun fd _ => if fd = bad then .error ⟨code⟩ else .ok ()⟩

/-- A sample target identity. -/
def nsPid1 : Namespace := { inum := 1, kind := .Pid }

/-- A switcher on the no-switch path (no handles). -/
def swNone : Switcher := { ns := nsPid1, src := none, dst := none }

/-- A switcher holding both handles (src fd 3, dst fd 4). -/
def swBoth : Switcher := { ns := nsPid1, src := some ⟨3⟩, dst := some ⟨4⟩ }

/-- A filesystem in which every namespace symlink of every process reads
back as `<tag>:[7]`, so every identity resolves to inum 7. -/
def fsEnvSame : FsEnv :=
  { self_pid := 1
  , read_link := fun kind _ => .ok (tagFront kind ++ ['7', ']'])
  , openf := fun _ _ => .ok ⟨9⟩ }

/-- A filesystem in which every symlink read fails with errno 2. -/
def fsEnvBad : FsEnv :=
  { self_pid := 1
  , read_link := fun _ _ => .error ⟨2⟩
  , openf := fun _ _ => .error ⟨13⟩ }

/-! The claims. -/

/-- Claim C7: the `Kind` taxonomy is a closed set of exactly eight values
whose tags are exactly `cgroup, ipc, mnt, net, pid, time, user, uts` (all
distinct), and `path kind pid` is the path `/proc/<pid>/ns/<tag>`; both
operations are pure Lean functions, hence side-effect free. -/
theorem kind_taxonomy_spec :
    (∀ k : Kind, k ∈ Kind.all) ∧
    Kind.all.length = 8 ∧
    Kind.all.map Kind.as_str =
      ["cgroup", "ipc", "mnt", "net", "pid", "time", "user", "uts"] ∧
    (Kind.all.map Kind.as_str).Nodup ∧
    (∀ (k : Kind) (pid : Nat),
      Kind.path k pid = "/proc/" ++ toString pid ++ "/ns/" ++ k.as_str) := by
  refine ⟨?_, by decide, by decide, by decide, ?_⟩
  · intro k; cases k <;> simp [Kind.all]
  · intro k pid
    unfold Kind.path pathJoin
    rw [String.append_assoc ("/proc/" ++ toString pid) "/ns" "/"]
    rw [show ("/ns" ++ "/" : String) = "/ns/" from rfl]

/-- Claim C7 witness: the path equation at a concrete kind and pid. -/
theorem kind_taxonomy_spec_witness :
    Kind.path Kind.Mnt 42 = "/proc/" ++ toString 42 ++ "/ns/" ++ Kind.Mnt.as_str :=
  kind_taxonomy_spec.2.2.2.2 Kind.Mnt 42

/-- Claim C8: two `Namespace` identities are equal iff both the `kind` and
the `inum` fields agree; any differing field makes them unequal. -/
theorem namespace_eq_iff (a b : Namespace) :
    a = b ↔ a.kind = b.kind ∧ a.inum = b.inum := by
  cases a with
  | mk ai ak =>
    cases b with
    | mk bi bk =>
      simp only [Namespace.mk.injEq]
      constructor
      · rintro ⟨h1, h2⟩; exact ⟨h2, h1⟩
      · rintro ⟨h1, h2⟩; exact ⟨h2, h1⟩

/-- Claim C8 witness: the equivalence applied at concrete identities. -/
theorem namespace_eq_iff_witness :
    ({ inum := 1, kind := .Pid } : Namespace) = { inum := 1, kind := .Pid } :=
  (namespace_eq_iff _ _).mpr ⟨rfl, rfl⟩

/-- Claim C1: with both handles present, if the enter-phase `setns`
succeeds and the exit-phase `setns` fails, `do_in_namespace` returns
`Error::Exit` carrying the switcher's target identity and the OS error,
whatever the logic `f` returned — f's result, successful or not, is
discarded and never returned. -/
theorem exit_failure_precedence (sw : Switcher) (env : Env) {T : Type}
    (f : Unit → Except Error T) (s d : NsFile) (e : IoError)
    (hs : sw.src = some s) (hd : sw.dst = some d)
    (henter : env.setns d.fd CLONE_NEWNS = .ok ())
    (hexit : env.setns s.fd CLONE_NEWNS = .error e) :
    (sw.do_in_namespace env f).1 = .error (.Exit sw.ns e) ∧
    ∀ t : T, (sw.do_in_namespace env f).1 ≠ .ok t := by
  have hmain : (sw.do_in_namespace env f).1 = .error (.Exit sw.ns e) := by
    simp [Switcher.do_in_namespace, Switcher.enter, Switcher.exit, hs, hd, henter, hexit]
  exact ⟨hmain, fun t hcontra => by rw [hmain] at hcontra; cases hcontra⟩

/-- Claim C1 witness: concrete switcher whose exit `setns` (fd 3) fails
with errno 13 while the enter `setns` (fd 4) succeeds; the logic returns
`.ok 7`, yet the result is the `Exit` error and not `.ok 7`. -/
theorem exit_failure_precedence_witness :
    (swBoth.do_in_namespace (envFailFd 3 13) (fun _ => .ok (7 : Nat))).1 =
      .error (.Exit nsPid1 ⟨13⟩) ∧
    (swBoth.do_in_namespace (envFailFd 3 13) (fun _ => .ok (7 : Nat))).1 ≠ .ok 7 := by
  have h := exit_failure_precedence swBoth (envFailFd 3 13) (fun _ => .ok (7 : Nat))
    ⟨3⟩ ⟨4⟩ ⟨13⟩ rfl rfl rfl rfl
  exact ⟨h.1, h.2 7⟩

/-- Claim C2: if the enter-phase `setns` fails, `do_in_namespace` returns
`Error::Enter` carrying the switcher's target identity and the OS error;
exactly one `setns` call was made (so the exit phase was never attempted)
and the logic was never invoked. -/
theorem enter_failure_short_circuit (sw : Switcher) (env : Env) {T : Type}
    (f : Unit → Except Error T) (d : NsFile) (e : IoError)
    (hd : sw.dst = some d)
    (he : env.setns d.fd CLONE_NEWNS = .error e) :
    sw.do_in_namespace env f =
      (.error (.Enter sw.ns e), [{ fd := d.fd, nstype := CLONE_NEWNS }], false) := by
  simp [Switcher.do_in_namespace, Switcher.enter, hd, he]

/-- Claim C2 witness: concrete switcher whose enter `setns` (fd 4) fails
with errno 1: the full output shows the `Enter` error, the single logged
call, and the logic-never-invoked flag. -/
theorem enter_failure_short_circuit_witness :
    swBoth.do_in_namespace (envFailFd 4 1) (fun _ => .ok (7 : Nat)) =
      (.error (.Enter nsPid1 ⟨1⟩), [{ fd := 4, nstype := CLONE_NEWNS }], false) :=
  enter_failure_short_circuit swBoth (envFailFd 4 1) (fun _ => .ok (7 : Nat))
    ⟨4⟩ ⟨1⟩ rfl rfl

/-- Claim C6: with both handles absent, `do_in_namespace` performs zero
`setns` calls and returns `f`'s result unmodified; and in general whenever
the enter and exit phases both succeed, the returned value is exactly `f`'s
result (success or caller-defined failure). -/
theorem no_switch_transparent (sw : Switcher) (env : Env) {T : Type}
    (f : Unit → Except Error T) :
    (sw.src = none → sw.dst = none →
      sw.do_in_namespace env f = (f (), [], true)) ∧
    ((sw.enter env).1 = .ok () → (sw.exit env).1 = .ok () →
      (sw.do_in_namespace env f).1 = f ()) := by
  constructor
  · intro hs hd
    simp [Switcher.do_in_namespace, Switcher.enter, Switcher.exit, hs, hd]
  · intro he hx
    rcases henter : sw.enter env with ⟨r1, c1⟩
    rcases hexit : sw.exit env with ⟨r2, c2⟩
    rw [henter] at he
    rw [hexit] at hx
    simp only at he hx
    subst he; subst hx
    simp [Switcher.do_in_namespace, henter, hexit]

/-- Claim C6 witness: the no-handle switcher with an arbitrary OS runs the
logic with zero logged `setns` calls and returns its `.ok 5` unmodified. -/
theorem no_switch_transparent_witness :
    swNone.do_in_namespace envOk (fun _ => .ok (5 : Nat)) = (.ok 5, [], true) ∧
    (swNone.do_in_namespace envOk (fun _ => .ok (5 : Nat))).1 = .ok 5 := by
  have h := no_switch_transparent swNone envOk (fun _ => .ok (5 : Nat))
  exact ⟨h.1 rfl rfl, h.2 rfl rfl⟩

/-- Claim C9: every `setns` call logged by the enter or exit phase of any
switcher carries the one fixed flag `CLONE_NEWNS = 0x20000`, which is
neither kind-specific (it is a constant independent of the switcher) nor
zero. -/
theorem setns_flag_fixed (sw : Switcher) (env : Env) :
    (∀ c ∈ (sw.enter env).2, c.nstype = CLONE_NEWNS) ∧
    (∀ c ∈ (sw.exit env).2, c.nstype = CLONE_NEWNS) ∧
    CLONE_NEWNS = 131072 ∧ CLONE_NEWNS ≠ 0 := by
  refine ⟨?_, ?_, rfl, by decide⟩
  · intro c hc
    cases hd : sw.dst with
    | none => simp [Switcher.enter, hd] at hc
    | some d =>
      simp [Switcher.enter, hd] at hc
      rw [hc]
  · intro c hc
    cases hstc : sw.src with
    | none => simp [Switcher.exit, hstc] at hc
    | some s =>
      simp [Switcher.exit, hstc] at hc
      rw [hc]

/-- Claim C9 witness: the call logged by a concrete switcher's enter phase
carries flag `CLONE_NEWNS`, and that flag is nonzero. -/
theorem setns_flag_fixed_witness :
    ({ fd := 4, nstype := CLONE_NEWNS } : SetnsCall).nstype = CLONE_NEWNS ∧
    CLONE_NEWNS ≠ 0 :=
  ⟨(setns_flag_fixed swBoth envOk).1 { fd := 4, nstype := CLONE_NEWNS } (by decide),
   (setns_flag_fixed swBoth envOk).2.2.2⟩

/-- Claim C3: a constructed switcher has `src` and `dst` either both
present or both absent, and they are absent exactly when the calling
process's resolved identity for the kind equals the target's. -/
theorem switcher_handles_invariant (kind : Kind) (pid : Nat) (env : FsEnv)
    (sw : Switcher) (h : Switcher.new kind pid env = .ok sw) :
    (sw.src.isSome ↔ sw.dst.isSome) ∧
    ∃ self_ns target_ns : Namespace,
      Namespace.from_pid kind (env.read_link kind env.self_pid) = .ok self_ns ∧
      Namespace.from_pid kind (env.read_link kind pid) = .ok target_ns ∧
      ((sw.src = none ∧ sw.dst = none) ↔ self_ns = target_ns) := by
  obtain ⟨self_ns, target_ns, hself, htarget, _, hcases⟩ := new_ok_inv kind pid env sw h
  rcases hcases with ⟨heq, hs, hd⟩ | ⟨hne, s, d, hs, hd⟩
  · exact ⟨by rw [hs, hd], self_ns, target_ns, hself, htarget,
      ⟨fun _ => heq, fun _ => ⟨hs, hd⟩⟩⟩
  · refine ⟨by rw [hs, hd]; simp, self_ns, target_ns, hself, htarget, ?_⟩
    constructor
    · rintro ⟨hs', _⟩; rw [hs] at hs'; cases hs'
    · intro heq; exact absurd heq hne

/-- Claim C3 witness: in a filesystem in which all identities resolve to
inum 7, the switcher built for `(Pid, pid 2)` is the handle-free one, and
the invariant instantiates to it. -/
theorem switcher_handles_invariant_witness :
    (let sw : Switcher := { ns := { inum := 7, kind := .Pid }, src := none, dst := none }
     (sw.src.isSome ↔ sw.dst.isSome) ∧
     ∃ self_ns target_ns : Namespace,
       Namespace.from_pid Kind.Pid (fsEnvSame.read_link Kind.Pid fsEnvSame.self_pid) =
         .ok self_ns ∧
       Namespace.from_pid Kind.Pid (fsEnvSame.read_link Kind.Pid 2) = .ok target_ns ∧
       ((sw.src = none ∧ sw.dst = none) ↔ self_ns = target_ns)) :=
  switcher_handles_invariant Kind.Pid 2 fsEnvSame
    { ns := { inum := 7, kind := .Pid }, src := none, dst := none } (by decide)

/-- Claim C10: `Switcher::new` is atomic on failure: a failed resolution of
either identity, or (on the differing-identity path) a failed open of
either namespace file, makes `new` return the `Namespace`-wrapped error and
produce no switcher; a successful `new` never yields exactly one handle. -/
theorem new_atomic (kind : Kind) (pid : Nat) (env : FsEnv) :
    (∀ e : NsError,
      Namespace.from_pid kind (env.read_link kind env.self_pid) = .error e →
      Switcher.new kind pid env = .error (.Namespace e)) ∧
    (∀ (self_ns : Namespace) (e : NsError),
      Namespace.from_pid kind (env.read_link kind env.self_pid) = .ok self_ns →
      Namespace.from_pid kind (env.read_link kind pid) = .error e →
      Switcher.new kind pid env = .error (.Namespace e)) ∧
    (∀ (self_ns target_ns : Namespace) (e : IoError),
      Namespace.from_pid kind (env.read_link kind env.self_pid) = .ok self_ns →
      Namespace.from_pid kind (env.read_link kind pid) = .ok target_ns →
      self_ns ≠ target_ns →
      env.openf kind env.self_pid = .error e →
      Switcher.new kind pid env = .error (.Namespace (.IoErr e))) ∧
    (∀ (self_ns target_ns : Namespace) (src : NsFile) (e : IoError),
      Namespace.from_pid kind (env.read_link kind env.self_pid) = .ok self_ns →
      Namespace.from_pid kind (env.read_link kind pid) = .ok target_ns →
      self_ns ≠ target_ns →
      env.openf kind env.self_pid = .ok src →
      env.openf kind pid = .error e →
      Switcher.new kind pid env = .error (.Namespace (.IoErr e))) ∧
    (∀ sw : Switcher, Switcher.new kind pid env = .ok sw →
      (sw.src.isSome ↔ sw.dst.isSome)) := by
  refine ⟨?_, ?_, ?_, ?_, ?_⟩
  · intro e h
    simp [Switcher.new, h]
  · intro self_ns e hself h
    simp [Switcher.new, hself, h]
  · intro self_ns target_ns e hself htarget hne hopen
    simp [Switcher.new, hself, htarget, hne, hopen, Namespace.openNs]
  · intro self_ns target_ns src e hself htarget hne hopen1 hopen2
    simp [Switcher.new, hself, htarget, hne, hopen1, hopen2, Namespace.openNs]
  · intro sw h
    obtain ⟨_, _, _, _, _, hcases⟩ := new_ok_inv kind pid env sw h
    rcases hcases with ⟨_, hs, hd⟩ | ⟨_, s, d, hs, hd⟩
    · rw [hs, hd]
    · rw [hs, hd]; simp

/-- Claim C10 witness: in a filesystem in which every symlink read fails
with errno 2, construction fails with the wrapped `Io` resolution error. -/
theorem new_atomic_witness :
    Switcher.new Kind.Net 2 fsEnvBad = .error (.Namespace (.IoErr ⟨2⟩)) :=
  (new_atomic Kind.Net 2 fsEnvBad).1 (.IoErr ⟨2⟩) rfl

/-- Claim C4: resolver error classification.  (1) An unreadable symlink is
reported as the `Io`-wrapped OS error.  (2) A readable link whose target
does not decompose as `<tag>:[` ++ span ++ `]` fails with `Format` — never
`Parse` or `Io`.  (3) A well-delimited target whose bracketed span is not a
valid `u32` (empty, non-numeric, or overflowing) fails with `Parse`. -/
theorem from_pid_error_classes :
    (∀ (kind : Kind) (e : IoError),
      Namespace.from_pid kind (.error e) = .error (.IoErr e)) ∧
    (∀ (kind : Kind) (link : List Char),
      (¬ ∃ mid : List Char, link = tagFront kind ++ mid ++ [']']) →
      Namespace.from_pid kind (.ok link) = .error .Format) ∧
    (∀ (kind : Kind) (mid : List Char) (e : ParseIntErrorKind),
      parseU32 mid = .error e →
      Namespace.from_pid kind (.ok (tagFront kind ++ mid ++ [']'])) =
        .error (.Parse e)) := by
  refine ⟨fun kind e => rfl, ?_, ?_⟩
  · intro kind link hno
    rcases hdp : dropPre (tagFront kind) link with _ | rest
    · simp [Namespace.from_pid, fromPidPure, hdp]
    · rcases hrb : dropRB rest with _ | sp
      · simp [Namespace.from_pid, fromPidPure, hdp, hrb]
      · refine absurd ⟨sp, ?_⟩ hno
        rw [dropPre_sound _ _ _ hdp, dropRB_sound _ _ hrb, List.append_assoc]
  · intro kind mid e he
    have h1 : dropPre (tagFront kind) (tagFront kind ++ (mid ++ [']'])) =
        some (mid ++ [']']) := dropPre_append _ _
    have h2 : dropRB (mid ++ [']']) = some mid := dropRB_append mid
    simp [Namespace.from_pid, fromPidPure, List.append_assoc, h1, h2, he]

/-- Claim C4 witness: for the `net` kind — an unreadable link (errno 2)
gives the `Io` error; the empty link target gives `Format`; the target
`net:[9x]` gives `Parse`. -/
theorem from_pid_error_classes_witness :
    Namespace.from_pid Kind.Net (.error ⟨2⟩) = .error (.IoErr ⟨2⟩) ∧
    Namespace.from_pid Kind.Net (.ok []) = .error .Format ∧
    Namespace.from_pid Kind.Net (.ok (tagFront Kind.Net ++ ['9', 'x'] ++ [']'])) =
      .error (.Parse .invalidDigit) := by
  refine ⟨from_pid_error_classes.1 Kind.Net ⟨2⟩, ?_, ?_⟩
  · refine from_pid_error_classes.2.1 Kind.Net [] ?_
    rintro ⟨mid, h⟩
    rw [(by decide : tagFront Kind.Net = 'n' :: ['e', 't', ':', '['])] at h
    simp only [List.cons_append] at h
    exact List.noConfusion h
  · exact from_pid_error_classes.2.2 Kind.Net ['9', 'x'] .invalidDigit (by decide)

/-- Claim C5 counterexample: the claim "whenever from_pid succeeds the
returned identity has inum > 0" is false on the code: on the (kernel-
shaped) link target `pid:[0]` the resolver succeeds with `inum = 0` — the
code never checks positivity. -/
theorem resolve_positive_counterexample :
    Namespace.from_pid Kind.Pid (.ok "pid:[0]".data) =
      .ok { inum := 0, kind := Kind.Pid } ∧
    ¬ (({ inum := 0, kind := Kind.Pid } : Namespace).inum > 0) := by
  exact ⟨by decide, by decide⟩

/-- Claim C5 (amended): whenever `from_pid` succeeds, the returned
identity's `kind` equals the kind argument and its `inum` is the parsed
bracket-span value, hence `< 2^32`; strict positivity of `inum` is a kernel
guarantee, not checked by the code. -/
theorem resolve_ok_kind_and_bound (kind : Kind) (readLink : Except IoError (List Char))
    (ns : Namespace) (h : Namespace.from_pid kind readLink = .ok ns) :
    ns.kind = kind ∧ ns.inum < 2 ^ 32 := by
  rcases readLink with e | link
  · cases h
  · simp only [Namespace.from_pid] at h
    unfold fromPidPure at h
    rcases hdp : dropPre (tagFront kind) link with _ | rest
    · rw [hdp] at h; cases h
    · rw [hdp] at h
      dsimp only at h
      rcases hrb : dropRB rest with _ | sp
      · rw [hrb] at h; cases h
      · rw [hrb] at h
        dsimp only at h
        rcases hp : parseU32 sp with e | n
        · rw [hp] at h; cases h
        · rw [hp] at h
          simp only [Except.ok.injEq] at h
          subst h
          exact ⟨rfl, parseU32_lt sp n hp⟩

/-- Claim C5 (amended) witness: the successful resolution of `pid:[42]`
yields kind `Pid` and a 32-bit inum. -/
theorem resolve_ok_kind_and_bound_witness :
    ({ inum := 42, kind := Kind.Pid } : Namespace).kind = Kind.Pid ∧
    ({ inum := 42, kind := Kind.Pid } : Namespace).inum < 2 ^ 32 :=
  resolve_ok_kind_and_bound Kind.Pid (.ok "pid:[42]".data)
    { inum := 42, kind := Kind.Pid } (by decide)
